import Mathlib

/-!
# SVSM vTPM command relay (SecurityPkg/Library/Tpm2DeviceLibDTpm/Tpm2Svsm.c)

A shallow embedding of the two procedures of the file:

* `Tpm2SvsmTpmCommand` : wraps a TPM command in the packed request structure
  inside the static buffer, calls the paravisor, unwraps the response;
* `Tpm2IsSvsmTpmCommandSupported` : asks the paravisor which platform commands
  it implements.

Memory is a map from byte offsets to bytes.  The static array is addressed by
offsets from its first byte; offsets below `TPM_PLATFORM_MAX_BUFFER` are the
array, larger offsets are the storage that follows it (an access there is an
out-of-bounds access of the C object).  Every access the code makes to the
array is recorded in a trace as a byte range, next to the calls it makes to
the two `CcExit` services, so that bounds and call counts can be stated.
The caller buffers `BufferIn` and `BufferOut` are taken to be disjoint from
the static array.  The `DEBUG` print has no effect on the state modelled here.
-/

namespace Tpm2Svsm

/-- One byte (`UINT8`). -/
abbrev UINT8 := Fin 256

/-- A 64-bit unsigned value (`UINT64`). -/
abbrev UINT64 := Fin 18446744073709551616

/-- The status codes named in the documentation of `Tpm2SvsmTpmCommand`. -/
inductive EFI_STATUS where
  | EFI_SUCCESS
  | EFI_BUFFER_TOO_SMALL
  | EFI_DEVICE_ERROR
  | EFI_UNSUPPORTED
  deriving DecidableEq

/-- Platform command number of "send TPM command" (`#define TPM_SEND_COMMAND 8`). -/
def TPM_SEND_COMMAND : Nat := 8

/-- Size of the request/response buffer (`#define TPM_PLATFORM_MAX_BUFFER 4096`). -/
def TPM_PLATFORM_MAX_BUFFER : Nat := 4096

/-- Bytes addressed by their offset from a base address. -/
abbrev Mem := Nat → UINT8

/-- The value of `sizeof (Tpm2SvsmBuffer)`. -/
def sizeofTpm2SvsmBuffer : Nat := TPM_PLATFORM_MAX_BUFFER

/-- Offset of `Cmd` in the packed `Tpm2SendCmdReq`. -/
def reqCmd : Nat := 0

/-- Offset of `Locality` in the packed `Tpm2SendCmdReq` (after the `UINT32 Cmd`). -/
def reqLocality : Nat := reqCmd + 4

/-- Offset of `BufSize` in the packed `Tpm2SendCmdReq` (after the `UINT8 Locality`). -/
def reqBufSize : Nat := reqLocality + 1

/-- Offset of the flexible array `Buf` in the packed `Tpm2SendCmdReq`. -/
def reqBuf : Nat := reqBufSize + 4

/-- The value of `sizeof (Tpm2SendCmdReq)`: the flexible array member adds nothing. -/
def sizeofTpm2SendCmdReq : Nat := reqBuf

/-- Offset of `Size` in the packed `Tpm2SendCmdResp`. -/
def respSize : Nat := 0

/-- Offset of the flexible array `Buf` in the packed `Tpm2SendCmdResp` (after the `INT32 Size`). -/
def respBuf : Nat := respSize + 4

/-- What the code does to the outside world, in the order it does it. -/
inductive Event where
  /-- Bytes `offset .. offset + len - 1` of `Tpm2SvsmBuffer` are written. -/
  | store (offset len : Nat)
  /-- Bytes `offset .. offset + len - 1` of `Tpm2SvsmBuffer` are read. -/
  | load (offset len : Nat)
  /-- `CcExitSnpVtpmCommand` is called; `buffer` is the memory it is handed. -/
  | vtpmCommand (buffer : Mem)
  /-- `CcExitSnpVtpmQuery` is called. -/
  | vtpmQuery

/-- The paravisor behind the call gate, with a state of its own.
`CcExitSnpVtpmCommand (Buffer)` reads and overwrites the buffer in place and
returns a `BOOLEAN`; `CcExitSnpVtpmQuery (&PlatformCommands, &Features)` is
given the current values of the two variables and returns a `BOOLEAN` and
their new values. -/
structure Transport (σ : Type) where
  CcExitSnpVtpmCommand : σ → Mem → Bool × Mem × σ
  CcExitSnpVtpmQuery : σ → UINT64 → UINT64 → Bool × UINT64 × UINT64 × σ

/-- The state that outlives a call: the static buffer and the paravisor. -/
structure Machine (σ : Type) where
  Tpm2SvsmBuffer : Mem
  host : σ

/-- A call in progress: the machine and the events emitted so far. -/
structure Exec (σ : Type) where
  Tpm2SvsmBuffer : Mem
  host : σ
  trace : List Event

/-- Byte `k` of the little-endian encoding of `v`. -/
def byteOf (v k : Nat) : UINT8 := ⟨v / 256 ^ k % 256, Nat.mod_lt _ (by decide)⟩

/-- Start of a call: nothing emitted yet. -/
def Machine.start {σ : Type} (s : Machine σ) : Exec σ := ⟨s.Tpm2SvsmBuffer, s.host, []⟩

/-- Assignment to a `UINT8` field at `off`. -/
def Exec.storeU8 {σ : Type} (e : Exec σ) (off : Nat) (v : UINT8) : Exec σ :=
  { e with
    Tpm2SvsmBuffer := fun i => if i = off then v else e.Tpm2SvsmBuffer i
    trace := e.trace ++ [Event.store off 1] }

/-- Assignment to a packed `UINT32` field at `off` (little-endian, value taken modulo `2 ^ 32`). -/
def Exec.storeU32 {σ : Type} (e : Exec σ) (off v : Nat) : Exec σ :=
  { e with
    Tpm2SvsmBuffer := fun i =>
      if off ≤ i ∧ i < off + 4 then byteOf v (i - off) else e.Tpm2SvsmBuffer i
    trace := e.trace ++ [Event.store off 4] }

/-- The unsigned little-endian 32-bit value at `off`. -/
def decodeU32 (m : Mem) (off : Nat) : Nat :=
  (m off).val + 256 * (m (off + 1)).val + 65536 * (m (off + 2)).val
    + 16777216 * (m (off + 3)).val

/-- The signed (two's complement) little-endian 32-bit value at `off`. -/
def decodeI32 (m : Mem) (off : Nat) : Int :=
  if decodeU32 m off < 2147483648 then (decodeU32 m off : Int)
  else (decodeU32 m off : Int) - 4294967296

/-- Read of a packed `INT32` field at `off`. -/
def Exec.loadI32 {σ : Type} (e : Exec σ) (off : Nat) : Int × Exec σ :=
  (decodeI32 e.Tpm2SvsmBuffer off, { e with trace := e.trace ++ [Event.load off 4] })

/-- Conversion of an `INT32` to `UINT32`, as in `*SizeOut = resp->Size`. -/
def toUINT32 (x : Int) : Nat := (x % 4294967296).toNat

/-- Modelled from the spec: `CopyMem` of BaseMemoryLib is not part of the file;
this is `CopyMem (Tpm2SvsmBuffer + off, Source, Length)`, which copies `Length`
bytes from `Source` into the static buffer. -/
def Exec.copyMemIn {σ : Type} (e : Exec σ) (off : Nat) (Source : Nat → UINT8) (Length : Nat) :
    Exec σ :=
  { e with
    Tpm2SvsmBuffer := fun i =>
      if off ≤ i ∧ i < off + Length then Source (i - off) else e.Tpm2SvsmBuffer i
    trace := e.trace ++ [Event.store off Length] }

/-- Modelled from the spec: `CopyMem` of BaseMemoryLib is not part of the file;
this is `CopyMem (Destination, Tpm2SvsmBuffer + off, Length)`, which copies
`Length` bytes starting at offset `off` of the static buffer to `Destination`.
The copy is total here; a range that leaves the array is recorded in the trace,
and `CommandResult.definedStatus` tells whether the result is one C defines. -/
def Exec.copyMemOut {σ : Type} (e : Exec σ) (Destination : Nat → UINT8) (off Length : Nat) :
    (Nat → UINT8) × Exec σ :=
  (fun i => if i < Length then e.Tpm2SvsmBuffer (off + i) else Destination i,
   { e with trace := e.trace ++ [Event.load off Length] })

/-- The call `CcExitSnpVtpmCommand (Tpm2SvsmBuffer)`. -/
def Exec.vtpmCommand {σ : Type} (T : Transport σ) (e : Exec σ) : Bool × Exec σ :=
  ((T.CcExitSnpVtpmCommand e.host e.Tpm2SvsmBuffer).1,
   ⟨(T.CcExitSnpVtpmCommand e.host e.Tpm2SvsmBuffer).2.1,
    (T.CcExitSnpVtpmCommand e.host e.Tpm2SvsmBuffer).2.2,
    e.trace ++ [Event.vtpmCommand e.Tpm2SvsmBuffer]⟩)

/-- Lines 67-70 of `Tpm2SvsmTpmCommand`: the request is written into the buffer. -/
def Exec.writeRequest {σ : Type} (e : Exec σ) (BufferIn : Nat → UINT8) (SizeIn : Nat) : Exec σ :=
  (((e.storeU32 reqCmd TPM_SEND_COMMAND).storeU8 reqLocality 0).storeU32 reqBufSize
    SizeIn).copyMemIn reqBuf BufferIn SizeIn

/-- What a call of `Tpm2SvsmTpmCommand` leaves behind. -/
structure CommandResult (σ : Type) where
  status : EFI_STATUS
  BufferOut : Nat → UINT8
  SizeOut : Nat
  final : Exec σ

/-- The function `Tpm2SvsmTpmCommand (BufferIn, SizeIn, BufferOut, SizeOut)`.
`SizeIn` and the entry value of `*SizeOut` are `UINT32` values. -/
def Tpm2SvsmTpmCommand {σ : Type} (T : Transport σ) (BufferIn : Nat → UINT8) (SizeIn : Nat)
    (BufferOut : Nat → UINT8) (SizeOut : Nat) (s : Machine σ) : CommandResult σ :=
  if SizeIn > sizeofTpm2SvsmBuffer - sizeofTpm2SendCmdReq then
    ⟨EFI_STATUS.EFI_BUFFER_TOO_SMALL, BufferOut, SizeOut, s.start⟩
  else
    let sent := Exec.vtpmCommand T (s.start.writeRequest BufferIn SizeIn)
    if !sent.1 then
      ⟨EFI_STATUS.EFI_DEVICE_ERROR, BufferOut, SizeOut, sent.2⟩
    else
      let size := sent.2.loadI32 respSize
      let copied := size.2.copyMemOut BufferOut respBuf (toUINT32 size.1)
      ⟨EFI_STATUS.EFI_SUCCESS, copied.1, toUINT32 size.1, copied.2⟩

/-- What a call of `Tpm2IsSvsmTpmCommandSupported` leaves behind. -/
structure SupportedResult (σ : Type) where
  ret : Bool
  final : Exec σ

/-- The call `CcExitSnpVtpmQuery (&PlatformCommands, &Features)`. -/
def Exec.vtpmQuery {σ : Type} (T : Transport σ) (e : Exec σ) (PlatformCommands Features : UINT64) :
    (Bool × UINT64 × UINT64) × Exec σ :=
  (((T.CcExitSnpVtpmQuery e.host PlatformCommands Features).1,
    (T.CcExitSnpVtpmQuery e.host PlatformCommands Features).2.1,
    (T.CcExitSnpVtpmQuery e.host PlatformCommands Features).2.2.1),
   ⟨e.Tpm2SvsmBuffer, (T.CcExitSnpVtpmQuery e.host PlatformCommands Features).2.2.2,
    e.trace ++ [Event.vtpmQuery]⟩)

/-- The value of `(UINT64)0 | 1 << TPM_SEND_COMMAND`. -/
def SendCommandMask : Nat := 0 ||| (1 <<< TPM_SEND_COMMAND)

/-- The function `Tpm2IsSvsmTpmCommandSupported ()`. -/
def Tpm2IsSvsmTpmCommandSupported {σ : Type} (T : Transport σ) (s : Machine σ) :
    SupportedResult σ :=
  let q := Exec.vtpmQuery T s.start 0 0
  if !q.1.1 then
    ⟨false, q.2⟩
  else if q.1.2.2 ≠ 0 then
    ⟨false, q.2⟩
  else
    ⟨decide (q.1.2.1.val &&& SendCommandMask = SendCommandMask), q.2⟩

/-- The buffers handed to `CcExitSnpVtpmCommand`, in call order. -/
def commandBuffers : List Event → List Mem
  | [] => []
  | Event.vtpmCommand b :: es => b :: commandBuffers es
  | _ :: es => commandBuffers es

/-- Number of calls of `CcExitSnpVtpmQuery`. -/
def queryCalls : List Event → Nat
  | [] => 0
  | Event.vtpmQuery :: es => queryCalls es + 1
  | _ :: es => queryCalls es

/-- A written range lies inside `Tpm2SvsmBuffer` (other events pass). -/
def Event.storeInside : Event → Bool
  | Event.store offset len => decide (offset + len ≤ TPM_PLATFORM_MAX_BUFFER)
  | _ => true

/-- A read range lies inside `Tpm2SvsmBuffer` (other events pass). -/
def Event.loadInside : Event → Bool
  | Event.load offset len => decide (offset + len ≤ TPM_PLATFORM_MAX_BUFFER)
  | _ => true

/-- The buffer content `CcExitSnpVtpmCommand` is handed when the request is
written over the buffer content `m`. -/
def requestImage (m : Mem) (BufferIn : Nat → UINT8) (SizeIn : Nat) : Mem :=
  ((Exec.mk m () []).writeRequest BufferIn SizeIn).Tpm2SvsmBuffer

/-- A paravisor without state whose services always answer the same. -/
def constTransport (ok : Bool) (response : Mem) (qok : Bool) (commands features : UINT64) :
    Transport Unit :=
  ⟨fun _ _ => (ok, response, ()), fun _ _ _ => (qok, commands, features, ())⟩

/-- A response of three bytes `AA BB CC`. -/
def response3 : Mem := fun i =>
  if i = 0 then 3 else if i = 4 then 0xAA else if i = 5 then 0xBB else if i = 6 then 0xCC else 0

/-- A buffer of zero bytes. -/
def zeros : Mem := fun _ => 0

/-- A buffer whose every byte is `FF`. -/
def ones : Mem := fun _ => 255

/-- A machine with a zeroed buffer. -/
def machine0 : Machine Unit := ⟨zeros, ()⟩

/-- A response whose length field says 4093. -/
def response4093 : Mem := fun i => if i = 0 then 0xFD else if i = 1 then 0x0F else 0

theorem sizeof_bound : sizeofTpm2SvsmBuffer - sizeofTpm2SendCmdReq = 4087 := by decide

theorem writeRequest_buffer {σ : Type} (s : Machine σ) (BufferIn : Nat → UINT8) (SizeIn : Nat) :
    (s.start.writeRequest BufferIn SizeIn).Tpm2SvsmBuffer
      = requestImage s.Tpm2SvsmBuffer BufferIn SizeIn := rfl

theorem writeRequest_host {σ : Type} (s : Machine σ) (BufferIn : Nat → UINT8) (SizeIn : Nat) :
    (s.start.writeRequest BufferIn SizeIn).host = s.host := rfl

theorem writeRequest_trace {σ : Type} (s : Machine σ) (BufferIn : Nat → UINT8) (SizeIn : Nat) :
    (s.start.writeRequest BufferIn SizeIn).trace
      = [Event.store 0 4, Event.store 4 1, Event.store 5 4, Event.store 9 SizeIn] := rfl

/-- The request image, byte by byte. -/
theorem requestImage_apply (m : Mem) (BufferIn : Nat → UINT8) (SizeIn i : Nat) :
    requestImage m BufferIn SizeIn i =
      if 9 ≤ i ∧ i < 9 + SizeIn then BufferIn (i - 9)
      else if 5 ≤ i ∧ i < 9 then byteOf SizeIn (i - 5)
      else if i = 4 then 0
      else if i < 4 then byteOf TPM_SEND_COMMAND i
      else m i := by
  simp only [requestImage, Exec.writeRequest, Exec.storeU32, Exec.storeU8, Exec.copyMemIn, reqCmd,
    reqLocality, reqBufSize, reqBuf]
  by_cases h9 : 9 ≤ i ∧ i < 9 + SizeIn
  · simp [h9]
  · by_cases h5 : 5 ≤ i ∧ i < 9
    · simp [h9, h5]
    · by_cases h4 : i = 4
      · simp [h4]
      · by_cases h0 : i < 4
        · simp [h9, h5, h4, h0]
        · simp [h9, h5, h4, h0]

/-- The input is rejected: nothing was done. -/
theorem command_reject {σ : Type} (T : Transport σ) (BufferIn : Nat → UINT8) (SizeIn : Nat)
    (BufferOut : Nat → UINT8) (SizeOut : Nat) (s : Machine σ) (h : 4087 < SizeIn) :
    Tpm2SvsmTpmCommand T BufferIn SizeIn BufferOut SizeOut s
      = ⟨EFI_STATUS.EFI_BUFFER_TOO_SMALL, BufferOut, SizeOut, s.start⟩ := by
  unfold Tpm2SvsmTpmCommand
  rw [sizeof_bound, if_pos h]

/-- The paravisor reports failure. -/
theorem command_fail {σ : Type} (T : Transport σ) (BufferIn : Nat → UINT8) (SizeIn : Nat)
    (BufferOut : Nat → UINT8) (SizeOut : Nat) (s : Machine σ) (h : SizeIn ≤ 4087)
    (hf : (T.CcExitSnpVtpmCommand s.host
      (requestImage s.Tpm2SvsmBuffer BufferIn SizeIn)).1 = false) :
    Tpm2SvsmTpmCommand T BufferIn SizeIn BufferOut SizeOut s
      = ⟨EFI_STATUS.EFI_DEVICE_ERROR, BufferOut, SizeOut,
          (Exec.vtpmCommand T (s.start.writeRequest BufferIn SizeIn)).2⟩ := by
  unfold Tpm2SvsmTpmCommand
  rw [sizeof_bound, if_neg (by omega)]
  simp only [Exec.vtpmCommand, writeRequest_buffer, writeRequest_host, hf]
  rfl

/-- The paravisor reports success. -/
theorem command_ok {σ : Type} (T : Transport σ) (BufferIn : Nat → UINT8) (SizeIn : Nat)
    (BufferOut : Nat → UINT8) (SizeOut : Nat) (s : Machine σ) (h : SizeIn ≤ 4087)
    (hf : (T.CcExitSnpVtpmCommand s.host
      (requestImage s.Tpm2SvsmBuffer BufferIn SizeIn)).1 = true) :
    Tpm2SvsmTpmCommand T BufferIn SizeIn BufferOut SizeOut s
      = ⟨EFI_STATUS.EFI_SUCCESS,
          (((Exec.vtpmCommand T (s.start.writeRequest BufferIn SizeIn)).2.loadI32
            respSize).2.copyMemOut BufferOut respBuf (toUINT32 ((Exec.vtpmCommand T
              (s.start.writeRequest BufferIn SizeIn)).2.loadI32 respSize).1)).1,
          toUINT32 ((Exec.vtpmCommand T (s.start.writeRequest BufferIn SizeIn)).2.loadI32
            respSize).1,
          (((Exec.vtpmCommand T (s.start.writeRequest BufferIn SizeIn)).2.loadI32
            respSize).2.copyMemOut BufferOut respBuf (toUINT32 ((Exec.vtpmCommand T
              (s.start.writeRequest BufferIn SizeIn)).2.loadI32 respSize).1)).2⟩ := by
  unfold Tpm2SvsmTpmCommand
  rw [sizeof_bound, if_neg (by omega)]
  simp only [Exec.vtpmCommand, writeRequest_buffer, writeRequest_host, hf]
  rfl

theorem decodeU32_lt (m : Mem) (off : Nat) : decodeU32 m off < 4294967296 := by
  unfold decodeU32
  have h0 := (m off).isLt
  have h1 := (m (off + 1)).isLt
  have h2 := (m (off + 2)).isLt
  have h3 := (m (off + 3)).isLt
  omega

/-- Reading the field as `INT32` and converting to `UINT32` gives the unsigned value. -/
theorem toUINT32_decodeI32 (m : Mem) (off : Nat) :
    toUINT32 (decodeI32 m off) = decodeU32 m off := by
  have hlt := decodeU32_lt m off
  unfold toUINT32 decodeI32
  split <;> omega

/-! ## The command relay -/

/-- C1: an input of more than 4087 bytes (4096 minus the 9-byte packed header)
is answered with `EFI_BUFFER_TOO_SMALL`; the call emits no event at all (no
call of `CcExitSnpVtpmCommand`, no write to the buffer) and leaves the buffer
as it was.  Sizes 4096 and 4088 are rejected, 4087 is not. -/
theorem C1_oversized_input_rejected {σ : Type} (T : Transport σ) (BufferIn : Nat → UINT8)
    (SizeIn : Nat) (BufferOut : Nat → UINT8) (SizeOut : Nat) (s : Machine σ)
    (h : 4087 < SizeIn) :
    sizeofTpm2SvsmBuffer - sizeofTpm2SendCmdReq = 4087
    ∧ (Tpm2SvsmTpmCommand T BufferIn SizeIn BufferOut SizeOut s).status
        = EFI_STATUS.EFI_BUFFER_TOO_SMALL
    ∧ (Tpm2SvsmTpmCommand T BufferIn SizeIn BufferOut SizeOut s).final.trace = []
    ∧ commandBuffers (Tpm2SvsmTpmCommand T BufferIn SizeIn BufferOut SizeOut s).final.trace = []
    ∧ (Tpm2SvsmTpmCommand T BufferIn SizeIn BufferOut SizeOut s).final.Tpm2SvsmBuffer
        = s.Tpm2SvsmBuffer
    ∧ (Tpm2SvsmTpmCommand T BufferIn 4096 BufferOut SizeOut s).status
        = EFI_STATUS.EFI_BUFFER_TOO_SMALL
    ∧ (Tpm2SvsmTpmCommand T BufferIn 4088 BufferOut SizeOut s).status
        = EFI_STATUS.EFI_BUFFER_TOO_SMALL
    ∧ (Tpm2SvsmTpmCommand T BufferIn 4087 BufferOut SizeOut s).status
        ≠ EFI_STATUS.EFI_BUFFER_TOO_SMALL := by
  refine ⟨sizeof_bound, ?_, ?_, ?_, ?_, ?_, ?_, ?_⟩
  · rw [command_reject T BufferIn SizeIn BufferOut SizeOut s h]
  · rw [command_reject T BufferIn SizeIn BufferOut SizeOut s h]; rfl
  · rw [command_reject T BufferIn SizeIn BufferOut SizeOut s h]; rfl
  · rw [command_reject T BufferIn SizeIn BufferOut SizeOut s h]; rfl
  · rw [command_reject T BufferIn 4096 BufferOut SizeOut s (by decide)]
  · rw [command_reject T BufferIn 4088 BufferOut SizeOut s (by decide)]
  · cases hr : (T.CcExitSnpVtpmCommand s.host (requestImage s.Tpm2SvsmBuffer BufferIn 4087)).1
    · rw [command_fail T BufferIn 4087 BufferOut SizeOut s (by decide) hr]
      simp
    · rw [command_ok T BufferIn 4087 BufferOut SizeOut s (by decide) hr]
      simp

/-- C1 at an input of 5000 bytes. -/
theorem C1_oversized_input_rejected_witness :
    4087 < 5000
    ∧ sizeofTpm2SvsmBuffer - sizeofTpm2SendCmdReq = 4087
    ∧ (Tpm2SvsmTpmCommand (constTransport true response3 true 0 0) zeros 5000 zeros 0
        machine0).status = EFI_STATUS.EFI_BUFFER_TOO_SMALL
    ∧ (Tpm2SvsmTpmCommand (constTransport true response3 true 0 0) zeros 5000 zeros 0
        machine0).final.trace = []
    ∧ commandBuffers (Tpm2SvsmTpmCommand (constTransport true response3 true 0 0) zeros 5000
        zeros 0 machine0).final.trace = []
    ∧ (Tpm2SvsmTpmCommand (constTransport true response3 true 0 0) zeros 5000 zeros 0
        machine0).final.Tpm2SvsmBuffer = machine0.Tpm2SvsmBuffer
    ∧ (Tpm2SvsmTpmCommand (constTransport true response3 true 0 0) zeros 4096 zeros 0
        machine0).status = EFI_STATUS.EFI_BUFFER_TOO_SMALL
    ∧ (Tpm2SvsmTpmCommand (constTransport true response3 true 0 0) zeros 4088 zeros 0
        machine0).status = EFI_STATUS.EFI_BUFFER_TOO_SMALL
    ∧ (Tpm2SvsmTpmCommand (constTransport true response3 true 0 0) zeros 4087 zeros 0
        machine0).status ≠ EFI_STATUS.EFI_BUFFER_TOO_SMALL :=
  ⟨by decide, C1_oversized_input_rejected (constTransport true response3 true 0 0) zeros 5000
    zeros 0 machine0 (by decide)⟩

/-- C2: for an input of at most 4087 bytes the buffer handed to
`CcExitSnpVtpmCommand` (there is exactly one) is a request in the wire format:
bytes 0..3 are the little-endian 8, byte 4 is 0, bytes 5..8 are the
little-endian `SizeIn`, and bytes 9..9+SizeIn-1 are the input. -/
theorem C2_request_wire_format {σ : Type} (T : Transport σ) (BufferIn : Nat → UINT8)
    (SizeIn : Nat) (BufferOut : Nat → UINT8) (SizeOut : Nat) (s : Machine σ)
    (h : SizeIn ≤ 4087) :
    ∃ b : Mem,
      commandBuffers (Tpm2SvsmTpmCommand T BufferIn SizeIn BufferOut SizeOut s).final.trace = [b]
      ∧ b 0 = 8 ∧ b 1 = 0 ∧ b 2 = 0 ∧ b 3 = 0
      ∧ decodeU32 b 0 = TPM_SEND_COMMAND
      ∧ b 4 = 0
      ∧ (∀ k, k < 4 → (b (5 + k)).val = SizeIn / 256 ^ k % 256)
      ∧ decodeU32 b 5 = SizeIn
      ∧ (∀ i, i < SizeIn → b (9 + i) = BufferIn i) := by
  have hb : ∀ i, requestImage s.Tpm2SvsmBuffer BufferIn SizeIn i = _ :=
    requestImage_apply s.Tpm2SvsmBuffer BufferIn SizeIn
  refine ⟨requestImage s.Tpm2SvsmBuffer BufferIn SizeIn, ?_, ?_, ?_, ?_, ?_, ?_, ?_, ?_, ?_, ?_⟩
  · cases hr : (T.CcExitSnpVtpmCommand s.host (requestImage s.Tpm2SvsmBuffer BufferIn SizeIn)).1
    · rw [command_fail T BufferIn SizeIn BufferOut SizeOut s h hr]
      simp [Exec.vtpmCommand, writeRequest_trace, writeRequest_buffer, commandBuffers]
    · rw [command_ok T BufferIn SizeIn BufferOut SizeOut s h hr]
      simp [Exec.vtpmCommand, Exec.loadI32, Exec.copyMemOut, writeRequest_trace,
        writeRequest_buffer, commandBuffers]
  · rw [hb]; simp [byteOf, TPM_SEND_COMMAND]
  · rw [hb]; simp [byteOf, TPM_SEND_COMMAND]
  · rw [hb]; simp [byteOf, TPM_SEND_COMMAND]
  · rw [hb]; simp [byteOf, TPM_SEND_COMMAND]
  · simp only [decodeU32, hb]; simp [byteOf, TPM_SEND_COMMAND]; rfl
  · rw [hb]; simp
  · intro k hk
    rw [hb]
    have h1 : ¬ (9 ≤ 5 + k ∧ 5 + k < 9 + SizeIn) := by omega
    have h2 : 5 ≤ 5 + k ∧ 5 + k < 9 := by omega
    simp [h1, h2, byteOf]
  · simp only [decodeU32, hb]
    simp [byteOf]
    omega
  · intro i hi
    rw [hb]
    have h1 : 9 ≤ 9 + i ∧ 9 + i < 9 + SizeIn := by omega
    simp [h1]

/-- C2 at a three-byte input. -/
theorem C2_request_wire_format_witness :
    3 ≤ 4087
    ∧ ∃ b : Mem,
      commandBuffers (Tpm2SvsmTpmCommand (constTransport true response3 true 0 0) ones 3 zeros 0
        machine0).final.trace = [b]
      ∧ b 0 = 8 ∧ b 1 = 0 ∧ b 2 = 0 ∧ b 3 = 0
      ∧ decodeU32 b 0 = TPM_SEND_COMMAND
      ∧ b 4 = 0
      ∧ (∀ k, k < 4 → (b (5 + k)).val = 3 / 256 ^ k % 256)
      ∧ decodeU32 b 5 = 3
      ∧ (∀ i, i < 3 → b (9 + i) = ones i) :=
  ⟨by decide, C2_request_wire_format (constTransport true response3 true 0 0) ones 3 zeros 0
    machine0 (by decide)⟩

/-- C3: for an input of at most 4087 bytes on which `CcExitSnpVtpmCommand`
reports success, the status is `EFI_SUCCESS`, the buffer after the call is the
one the paravisor left, `*SizeOut` is the little-endian 32-bit value of its
bytes 0..3, and `BufferOut[0 .. *SizeOut)` are its bytes from offset 4 on.
A response of length 3 with payload AA BB CC gives `*SizeOut = 3` and
`BufferOut = AA BB CC`. -/
theorem C3_success_decodes_response {σ : Type} (T : Transport σ) (BufferIn : Nat → UINT8)
    (SizeIn : Nat) (BufferOut : Nat → UINT8) (SizeOut : Nat) (s : Machine σ)
    (h : SizeIn ≤ 4087)
    (hok : (T.CcExitSnpVtpmCommand s.host
      (requestImage s.Tpm2SvsmBuffer BufferIn SizeIn)).1 = true) :
    (Tpm2SvsmTpmCommand T BufferIn SizeIn BufferOut SizeOut s).status = EFI_STATUS.EFI_SUCCESS
    ∧ (Tpm2SvsmTpmCommand T BufferIn SizeIn BufferOut SizeOut s).final.Tpm2SvsmBuffer
        = (T.CcExitSnpVtpmCommand s.host (requestImage s.Tpm2SvsmBuffer BufferIn SizeIn)).2.1
    ∧ (Tpm2SvsmTpmCommand T BufferIn SizeIn BufferOut SizeOut s).SizeOut
        = decodeU32 (Tpm2SvsmTpmCommand T BufferIn SizeIn BufferOut SizeOut s).final.Tpm2SvsmBuffer 0
    ∧ (∀ i, i < (Tpm2SvsmTpmCommand T BufferIn SizeIn BufferOut SizeOut s).SizeOut →
        (Tpm2SvsmTpmCommand T BufferIn SizeIn BufferOut SizeOut s).BufferOut i
          = (Tpm2SvsmTpmCommand T BufferIn SizeIn BufferOut SizeOut s).final.Tpm2SvsmBuffer (4 + i))
    ∧ (Tpm2SvsmTpmCommand (constTransport true response3 true 0 0) BufferIn SizeIn BufferOut
        SizeOut machine0).status = EFI_STATUS.EFI_SUCCESS
    ∧ (Tpm2SvsmTpmCommand (constTransport true response3 true 0 0) BufferIn SizeIn BufferOut
        SizeOut machine0).SizeOut = 3
    ∧ (Tpm2SvsmTpmCommand (constTransport true response3 true 0 0) BufferIn SizeIn BufferOut
        SizeOut machine0).BufferOut 0 = 0xAA
    ∧ (Tpm2SvsmTpmCommand (constTransport true response3 true 0 0) BufferIn SizeIn BufferOut
        SizeOut machine0).BufferOut 1 = 0xBB
    ∧ (Tpm2SvsmTpmCommand (constTransport true response3 true 0 0) BufferIn SizeIn BufferOut
        SizeOut machine0).BufferOut 2 = 0xCC := by
  have hsc : Tpm2SvsmTpmCommand (constTransport true response3 true 0 0) BufferIn SizeIn
      BufferOut SizeOut machine0 = _ :=
    command_ok (constTransport true response3 true 0 0) BufferIn SizeIn BufferOut SizeOut
      machine0 h rfl
  have h3 : toUINT32 (decodeI32 response3 0) = 3 := by decide
  rw [command_ok T BufferIn SizeIn BufferOut SizeOut s h hok, hsc]
  simp only [Exec.vtpmCommand, Exec.loadI32, Exec.copyMemOut, writeRequest_buffer,
    writeRequest_host, toUINT32_decodeI32, respSize, respBuf]
  refine ⟨trivial, trivial, trivial, ?_, trivial, ?_, ?_, ?_, ?_⟩
  · intro i hi
    simp [hi]
  · exact (toUINT32_decodeI32 response3 0).symm.trans h3
  · simp only [constTransport]
    rw [show decodeU32 response3 0 = 3 by decide]
    rfl
  · simp only [constTransport]
    rw [show decodeU32 response3 0 = 3 by decide]
    rfl
  · simp only [constTransport]
    rw [show decodeU32 response3 0 = 3 by decide]
    rfl

/-- C3 at the scenario of a three-byte response AA BB CC. -/
theorem C3_success_decodes_response_witness :
    0 ≤ 4087
    ∧ ((constTransport true response3 true 0 0).CcExitSnpVtpmCommand machine0.host
        (requestImage machine0.Tpm2SvsmBuffer zeros 0)).1 = true
    ∧ (Tpm2SvsmTpmCommand (constTransport true response3 true 0 0) zeros 0 zeros 0
        machine0).status = EFI_STATUS.EFI_SUCCESS
    ∧ (Tpm2SvsmTpmCommand (constTransport true response3 true 0 0) zeros 0 zeros 0
        machine0).SizeOut = 3
    ∧ (Tpm2SvsmTpmCommand (constTransport true response3 true 0 0) zeros 0 zeros 0
        machine0).BufferOut 0 = 0xAA
    ∧ (Tpm2SvsmTpmCommand (constTransport true response3 true 0 0) zeros 0 zeros 0
        machine0).BufferOut 1 = 0xBB
    ∧ (Tpm2SvsmTpmCommand (constTransport true response3 true 0 0) zeros 0 zeros 0
        machine0).BufferOut 2 = 0xCC :=
  ⟨by decide, rfl,
    (C3_success_decodes_response (constTransport true response3 true 0 0) zeros 0 zeros 0
      machine0 (by decide) rfl).1,
    (C3_success_decodes_response (constTransport true response3 true 0 0) zeros 0 zeros 0
      machine0 (by decide) rfl).2.2.2.2.2⟩

/-- C4: for an input of at most 4087 bytes on which `CcExitSnpVtpmCommand`
reports failure, the status is `EFI_DEVICE_ERROR` and `BufferOut` and
`*SizeOut` are what they were; and for every call, whatever the paravisor
does, a status other than `EFI_SUCCESS` comes with `BufferOut` and `*SizeOut`
unchanged. -/
theorem C4_failure_leaves_output {σ : Type} (T : Transport σ) (BufferIn : Nat → UINT8)
    (SizeIn : Nat) (BufferOut : Nat → UINT8) (SizeOut : Nat) (s : Machine σ) :
    (SizeIn ≤ 4087 →
      (T.CcExitSnpVtpmCommand s.host (requestImage s.Tpm2SvsmBuffer BufferIn SizeIn)).1 = false →
        (Tpm2SvsmTpmCommand T BufferIn SizeIn BufferOut SizeOut s).status
            = EFI_STATUS.EFI_DEVICE_ERROR
        ∧ (Tpm2SvsmTpmCommand T BufferIn SizeIn BufferOut SizeOut s).BufferOut = BufferOut
        ∧ (Tpm2SvsmTpmCommand T BufferIn SizeIn BufferOut SizeOut s).SizeOut = SizeOut)
    ∧ ((Tpm2SvsmTpmCommand T BufferIn SizeIn BufferOut SizeOut s).status
          ≠ EFI_STATUS.EFI_SUCCESS →
        (Tpm2SvsmTpmCommand T BufferIn SizeIn BufferOut SizeOut s).BufferOut = BufferOut
        ∧ (Tpm2SvsmTpmCommand T BufferIn SizeIn BufferOut SizeOut s).SizeOut = SizeOut) := by
  refine ⟨?_, ?_⟩
  · intro h hfail
    rw [command_fail T BufferIn SizeIn BufferOut SizeOut s h hfail]
    exact ⟨rfl, rfl, rfl⟩
  · intro hne
    by_cases hn : 4087 < SizeIn
    · rw [command_reject T BufferIn SizeIn BufferOut SizeOut s hn]
      exact ⟨rfl, rfl⟩
    · cases hr : (T.CcExitSnpVtpmCommand s.host
          (requestImage s.Tpm2SvsmBuffer BufferIn SizeIn)).1
      · rw [command_fail T BufferIn SizeIn BufferOut SizeOut s (by omega) hr]
        exact ⟨rfl, rfl⟩
      · rw [command_ok T BufferIn SizeIn BufferOut SizeOut s (by omega) hr] at hne
        exact absurd rfl hne

/-- C4 at a paravisor that always fails, and at an oversized input with a
paravisor that never fails, each with a non-empty output buffer. -/
theorem C4_failure_leaves_output_witness :
    ((Tpm2SvsmTpmCommand (constTransport false response3 true 0 0) zeros 3 ones 7
        machine0).status = EFI_STATUS.EFI_DEVICE_ERROR
      ∧ (Tpm2SvsmTpmCommand (constTransport false response3 true 0 0) zeros 3 ones 7
        machine0).BufferOut = ones
      ∧ (Tpm2SvsmTpmCommand (constTransport false response3 true 0 0) zeros 3 ones 7
        machine0).SizeOut = 7)
    ∧ ((Tpm2SvsmTpmCommand (constTransport true response3 true 0 0) zeros 5000 ones 7
        machine0).BufferOut = ones
      ∧ (Tpm2SvsmTpmCommand (constTransport true response3 true 0 0) zeros 5000 ones 7
        machine0).SizeOut = 7) :=
  ⟨(C4_failure_leaves_output (constTransport false response3 true 0 0) zeros 3 ones 7
      machine0).1 (by decide) rfl,
    (C4_failure_leaves_output (constTransport true response3 true 0 0) zeros 5000 ones 7
      machine0).2 (by decide)⟩

/-! ## The capability check -/

theorem and_mask_iff (n : Nat) : n &&& SendCommandMask = SendCommandMask ↔ n.testBit 8 = true := by
  have h := Nat.and_two_pow n 8
  rw [show SendCommandMask = 2 ^ 8 by decide, h]
  cases n.testBit 8 <;> simp

/-- The answer of `Tpm2IsSvsmTpmCommandSupported` as a function of the query outcome. -/
theorem supported_ret {σ : Type} (T : Transport σ) (s : Machine σ) (ok : Bool)
    (commands features : UINT64) (host1 : σ)
    (hq : T.CcExitSnpVtpmQuery s.host 0 0 = (ok, commands, features, host1)) :
    (Tpm2IsSvsmTpmCommandSupported T s).ret
      = (ok && decide (features = 0) && commands.val.testBit 8) := by
  have hs : s.start.host = s.host := rfl
  unfold Tpm2IsSvsmTpmCommandSupported
  simp only [Exec.vtpmQuery, hs, hq]
  cases ok
  · simp
  · by_cases hf : features = 0
    · simp [hf, and_mask_iff]
    · simp [hf]

/-- C5: `Tpm2IsSvsmTpmCommandSupported` answers TRUE exactly when the query
succeeds, `Features` is 0 and bit 8 of `PlatformCommands` is set
(`PlatformCommands & 0x100 == 0x100`); no other bit of `PlatformCommands`
matters.  The outcome (0x100, 0, ok) gives TRUE and (0x100, 1, ok) gives FALSE. -/
theorem C5_supported_iff {σ : Type} (T : Transport σ) (s : Machine σ) (ok : Bool)
    (commands features : UINT64) (host1 : σ)
    (hq : T.CcExitSnpVtpmQuery s.host 0 0 = (ok, commands, features, host1)) :
    ((Tpm2IsSvsmTpmCommandSupported T s).ret = true
        ↔ ok = true ∧ features = 0 ∧ commands.val &&& 0x100 = 0x100)
    ∧ (commands.val &&& 0x100 = 0x100 ↔ commands.val.testBit 8 = true)
    ∧ (∀ (T2 : Transport σ) (s2 : Machine σ) (commands2 : UINT64) (host2 : σ),
        T2.CcExitSnpVtpmQuery s2.host 0 0 = (ok, commands2, features, host2) →
        commands2.val.testBit 8 = commands.val.testBit 8 →
        (Tpm2IsSvsmTpmCommandSupported T2 s2).ret = (Tpm2IsSvsmTpmCommandSupported T s).ret)
    ∧ (Tpm2IsSvsmTpmCommandSupported (constTransport true zeros true 0x100 0) machine0).ret = true
    ∧ (Tpm2IsSvsmTpmCommandSupported (constTransport true zeros true 0x100 1) machine0).ret
        = false := by
  have hm : commands.val &&& 0x100 = 0x100 ↔ commands.val.testBit 8 = true :=
    and_mask_iff commands.val
  refine ⟨?_, hm, ?_, by decide, by decide⟩
  · rw [supported_ret T s ok commands features host1 hq, hm]
    simp [and_assoc]
  · intro T2 s2 commands2 host2 hq2 hbit
    rw [supported_ret T s ok commands features host1 hq,
      supported_ret T2 s2 ok commands2 features host2 hq2, hbit]

/-- C5 at the outcome (0x1FF, 0, ok): bit 8 is set among others. -/
theorem C5_supported_iff_witness :
    (constTransport true zeros true 0x1FF 0).CcExitSnpVtpmQuery machine0.host 0 0
        = (true, 0x1FF, 0, ())
    ∧ ((Tpm2IsSvsmTpmCommandSupported (constTransport true zeros true 0x1FF 0) machine0).ret
        = true ↔ true = true ∧ (0 : UINT64) = 0 ∧ (0x1FF : UINT64).val &&& 0x100 = 0x100) :=
  ⟨rfl, (C5_supported_iff (constTransport true zeros true 0x1FF 0) machine0 true 0x1FF 0 ()
    rfl).1⟩

/-! ## Results of the command relay, field by field -/

/-- The events of a call that reached the paravisor and was told it failed. -/
theorem command_fail_trace {σ : Type} (T : Transport σ) (BufferIn : Nat → UINT8) (SizeIn : Nat)
    (BufferOut : Nat → UINT8) (SizeOut : Nat) (s : Machine σ) (h : SizeIn ≤ 4087)
    (hf : (T.CcExitSnpVtpmCommand s.host
      (requestImage s.Tpm2SvsmBuffer BufferIn SizeIn)).1 = false) :
    (Tpm2SvsmTpmCommand T BufferIn SizeIn BufferOut SizeOut s).final.trace
      = [Event.store 0 4, Event.store 4 1, Event.store 5 4, Event.store 9 SizeIn,
          Event.vtpmCommand (requestImage s.Tpm2SvsmBuffer BufferIn SizeIn)] := by
  rw [command_fail T BufferIn SizeIn BufferOut SizeOut s h hf]
  simp [Exec.vtpmCommand, writeRequest_trace, writeRequest_buffer]

/-- The fields of the result of a call that reached the paravisor and was told it succeeded. -/
theorem command_ok_fields {σ : Type} (T : Transport σ) (BufferIn : Nat → UINT8) (SizeIn : Nat)
    (BufferOut : Nat → UINT8) (SizeOut : Nat) (s : Machine σ) (h : SizeIn ≤ 4087)
    (hf : (T.CcExitSnpVtpmCommand s.host
      (requestImage s.Tpm2SvsmBuffer BufferIn SizeIn)).1 = true) :
    (Tpm2SvsmTpmCommand T BufferIn SizeIn BufferOut SizeOut s).status = EFI_STATUS.EFI_SUCCESS
    ∧ (Tpm2SvsmTpmCommand T BufferIn SizeIn BufferOut SizeOut s).final.Tpm2SvsmBuffer
        = (T.CcExitSnpVtpmCommand s.host (requestImage s.Tpm2SvsmBuffer BufferIn SizeIn)).2.1
    ∧ (Tpm2SvsmTpmCommand T BufferIn SizeIn BufferOut SizeOut s).SizeOut
        = decodeU32
            (T.CcExitSnpVtpmCommand s.host (requestImage s.Tpm2SvsmBuffer BufferIn SizeIn)).2.1 0
    ∧ (Tpm2SvsmTpmCommand T BufferIn SizeIn BufferOut SizeOut s).BufferOut
        = (fun i =>
            if i < decodeU32 (T.CcExitSnpVtpmCommand s.host
                (requestImage s.Tpm2SvsmBuffer BufferIn SizeIn)).2.1 0
            then (T.CcExitSnpVtpmCommand s.host
                (requestImage s.Tpm2SvsmBuffer BufferIn SizeIn)).2.1 (4 + i)
            else BufferOut i)
    ∧ (Tpm2SvsmTpmCommand T BufferIn SizeIn BufferOut SizeOut s).final.trace
        = [Event.store 0 4, Event.store 4 1, Event.store 5 4, Event.store 9 SizeIn,
            Event.vtpmCommand (requestImage s.Tpm2SvsmBuffer BufferIn SizeIn),
            Event.load 0 4,
            Event.load 4 (decodeU32 (T.CcExitSnpVtpmCommand s.host
              (requestImage s.Tpm2SvsmBuffer BufferIn SizeIn)).2.1 0)] := by
  rw [command_ok T BufferIn SizeIn BufferOut SizeOut s h hf]
  simp [Exec.vtpmCommand, Exec.loadI32, Exec.copyMemOut, writeRequest_trace,
    writeRequest_buffer, writeRequest_host, toUINT32_decodeI32, respSize, respBuf]

/-- A call that returns `EFI_SUCCESS` passed the size check and was told of success. -/
theorem success_inv {σ : Type} (T : Transport σ) (BufferIn : Nat → UINT8) (SizeIn : Nat)
    (BufferOut : Nat → UINT8) (SizeOut : Nat) (s : Machine σ)
    (hs : (Tpm2SvsmTpmCommand T BufferIn SizeIn BufferOut SizeOut s).status
      = EFI_STATUS.EFI_SUCCESS) :
    SizeIn ≤ 4087 ∧ (T.CcExitSnpVtpmCommand s.host
      (requestImage s.Tpm2SvsmBuffer BufferIn SizeIn)).1 = true := by
  by_cases hn : 4087 < SizeIn
  · rw [command_reject T BufferIn SizeIn BufferOut SizeOut s hn] at hs
    simp at hs
  · cases hr : (T.CcExitSnpVtpmCommand s.host (requestImage s.Tpm2SvsmBuffer BufferIn SizeIn)).1
    · rw [command_fail T BufferIn SizeIn BufferOut SizeOut s (by omega) hr] at hs
      simp at hs
    · exact ⟨by omega, rfl⟩

/-- C6 refuted: a paravisor that reports success and leaves the length 4093
in the buffer makes the call return `EFI_SUCCESS` with `*SizeOut = 4093`,
above 4092, and the copy reads the range 4 .. 4096, past the end of the buffer. -/
theorem C6_response_length_unbounded :
    (Tpm2SvsmTpmCommand (constTransport true response4093 true 0 0) zeros 0 zeros 0
        machine0).status = EFI_STATUS.EFI_SUCCESS
    ∧ (Tpm2SvsmTpmCommand (constTransport true response4093 true 0 0) zeros 0 zeros 0
        machine0).SizeOut = 4093
    ∧ ¬ ((Tpm2SvsmTpmCommand (constTransport true response4093 true 0 0) zeros 0 zeros 0
        machine0).SizeOut ≤ 4092)
    ∧ (Tpm2SvsmTpmCommand (constTransport true response4093 true 0 0) zeros 0 zeros 0
        machine0).final.trace.all Event.loadInside = false := by
  decide

/-- C6 amended: when a call returns `EFI_SUCCESS` and the length field the
paravisor left in bytes 0..3 of the buffer is at most 4092, `*SizeOut` is that
length, it is at most 4092, every read of the call lies inside the buffer, and
every payload byte copied to `BufferOut` comes from an offset below 4096. -/
theorem C6_bounded_response_read_inside {σ : Type} (T : Transport σ) (BufferIn : Nat → UINT8)
    (SizeIn : Nat) (BufferOut : Nat → UINT8) (SizeOut : Nat) (s : Machine σ)
    (hs : (Tpm2SvsmTpmCommand T BufferIn SizeIn BufferOut SizeOut s).status
      = EFI_STATUS.EFI_SUCCESS)
    (hlen : decodeU32
      (Tpm2SvsmTpmCommand T BufferIn SizeIn BufferOut SizeOut s).final.Tpm2SvsmBuffer 0 ≤ 4092) :
    (Tpm2SvsmTpmCommand T BufferIn SizeIn BufferOut SizeOut s).SizeOut
        = decodeU32
            (Tpm2SvsmTpmCommand T BufferIn SizeIn BufferOut SizeOut s).final.Tpm2SvsmBuffer 0
    ∧ (Tpm2SvsmTpmCommand T BufferIn SizeIn BufferOut SizeOut s).SizeOut ≤ 4092
    ∧ (∀ ev, ev ∈ (Tpm2SvsmTpmCommand T BufferIn SizeIn BufferOut SizeOut s).final.trace →
        ev.loadInside = true)
    ∧ (∀ i, i < (Tpm2SvsmTpmCommand T BufferIn SizeIn BufferOut SizeOut s).SizeOut →
        4 + i < TPM_PLATFORM_MAX_BUFFER
        ∧ (Tpm2SvsmTpmCommand T BufferIn SizeIn BufferOut SizeOut s).BufferOut i
            = (Tpm2SvsmTpmCommand T BufferIn SizeIn BufferOut SizeOut s).final.Tpm2SvsmBuffer
                (4 + i)) := by
  obtain ⟨h, hok⟩ := success_inv T BufferIn SizeIn BufferOut SizeOut s hs
  obtain ⟨_, hbuf, hsize, hout, htrace⟩ :=
    command_ok_fields T BufferIn SizeIn BufferOut SizeOut s h hok
  rw [hbuf] at hlen
  rw [hbuf, hsize, hout, htrace]
  refine ⟨rfl, hlen, ?_, ?_⟩
  · intro ev hev
    simp only [List.mem_cons, List.mem_singleton, List.not_mem_nil, or_false] at hev
    rcases hev with rfl | rfl | rfl | rfl | rfl | rfl | rfl
    all_goals simp [Event.loadInside, TPM_PLATFORM_MAX_BUFFER]
    omega
  · intro i hi
    simp only [TPM_PLATFORM_MAX_BUFFER, if_pos hi]
    exact ⟨by omega, trivial⟩

/-- C6 amended, at a response of three bytes. -/
theorem C6_bounded_response_read_inside_witness :
    (Tpm2SvsmTpmCommand (constTransport true response3 true 0 0) zeros 0 zeros 0
        machine0).status = EFI_STATUS.EFI_SUCCESS
    ∧ decodeU32 (Tpm2SvsmTpmCommand (constTransport true response3 true 0 0) zeros 0 zeros 0
        machine0).final.Tpm2SvsmBuffer 0 ≤ 4092
    ∧ (Tpm2SvsmTpmCommand (constTransport true response3 true 0 0) zeros 0 zeros 0
        machine0).SizeOut ≤ 4092
    ∧ (∀ ev, ev ∈ (Tpm2SvsmTpmCommand (constTransport true response3 true 0 0) zeros 0 zeros 0
        machine0).final.trace → ev.loadInside = true) :=
  ⟨by decide, by decide,
    (C6_bounded_response_read_inside (constTransport true response3 true 0 0) zeros 0 zeros 0
      machine0 (by decide) (by decide)).2.1,
    (C6_bounded_response_read_inside (constTransport true response3 true 0 0) zeros 0 zeros 0
      machine0 (by decide) (by decide)).2.2.1⟩

/-- C7, the code at the failing input: the paravisor reports success with a
response of three bytes while `*SizeOut` is 2 on entry; the status is
`EFI_SUCCESS`, not `EFI_BUFFER_TOO_SMALL`, `*SizeOut` becomes 3 and the third
byte of `BufferOut` is written. -/
theorem C7_small_output_buffer_accepted :
    (2 : Nat) < decodeU32 response3 0
    ∧ (Tpm2SvsmTpmCommand (constTransport true response3 true 0 0) zeros 0 zeros 2
        machine0).status = EFI_STATUS.EFI_SUCCESS
    ∧ (Tpm2SvsmTpmCommand (constTransport true response3 true 0 0) zeros 0 zeros 2
        machine0).status ≠ EFI_STATUS.EFI_BUFFER_TOO_SMALL
    ∧ (Tpm2SvsmTpmCommand (constTransport true response3 true 0 0) zeros 0 zeros 2
        machine0).SizeOut = 3
    ∧ (Tpm2SvsmTpmCommand (constTransport true response3 true 0 0) zeros 0 zeros 2
        machine0).BufferOut 2 = 0xCC := by
  decide

/-- Whatever buffer reached the paravisor is the request image, and the input passed the check. -/
theorem reached_inv {σ : Type} (T : Transport σ) (BufferIn : Nat → UINT8) (SizeIn : Nat)
    (BufferOut : Nat → UINT8) (SizeOut : Nat) (s : Machine σ) (b : Mem)
    (hb : b ∈ commandBuffers (Tpm2SvsmTpmCommand T BufferIn SizeIn BufferOut SizeOut s).final.trace) :
    SizeIn ≤ 4087 ∧ b = requestImage s.Tpm2SvsmBuffer BufferIn SizeIn := by
  by_cases hn : 4087 < SizeIn
  · rw [command_reject T BufferIn SizeIn BufferOut SizeOut s hn] at hb
    simp [Machine.start, commandBuffers] at hb
  · cases hr : (T.CcExitSnpVtpmCommand s.host (requestImage s.Tpm2SvsmBuffer BufferIn SizeIn)).1
    · rw [command_fail_trace T BufferIn SizeIn BufferOut SizeOut s (by omega) hr] at hb
      simp [commandBuffers] at hb
      exact ⟨by omega, hb⟩
    · rw [(command_ok_fields T BufferIn SizeIn BufferOut SizeOut s (by omega) hr).2.2.2.2] at hb
      simp [commandBuffers] at hb
      exact ⟨by omega, hb⟩

/-- The events of a call, whatever its outcome, up to the call of the paravisor. -/
theorem stores_inside {σ : Type} (T : Transport σ) (BufferIn : Nat → UINT8) (SizeIn : Nat)
    (BufferOut : Nat → UINT8) (SizeOut : Nat) (s : Machine σ) (ev : Event)
    (hev : ev ∈ (Tpm2SvsmTpmCommand T BufferIn SizeIn BufferOut SizeOut s).final.trace) :
    ev.storeInside = true := by
  by_cases hn : 4087 < SizeIn
  · rw [command_reject T BufferIn SizeIn BufferOut SizeOut s hn] at hev
    simp [Machine.start] at hev
  · cases hr : (T.CcExitSnpVtpmCommand s.host (requestImage s.Tpm2SvsmBuffer BufferIn SizeIn)).1
    · rw [command_fail_trace T BufferIn SizeIn BufferOut SizeOut s (by omega) hr] at hev
      simp only [List.mem_cons, List.mem_singleton, List.not_mem_nil, or_false] at hev
      rcases hev with rfl | rfl | rfl | rfl | rfl
      all_goals simp [Event.storeInside, TPM_PLATFORM_MAX_BUFFER]
      omega
    · rw [(command_ok_fields T BufferIn SizeIn BufferOut SizeOut s (by omega) hr).2.2.2.2] at hev
      simp only [List.mem_cons, List.mem_singleton, List.not_mem_nil, or_false] at hev
      rcases hev with rfl | rfl | rfl | rfl | rfl | rfl | rfl
      all_goals simp [Event.storeInside, TPM_PLATFORM_MAX_BUFFER]
      omega

/-- C8: in a call that reaches `CcExitSnpVtpmCommand` with the buffer `b`, the
subtraction 4096 - 9 does not underflow, 9 plus the length field written into
`b` is at most 4096, 9 + `SizeIn` stays below 2 ^ 32, every range the call
writes lies inside the buffer, and no byte past the buffer has changed. -/
theorem C8_request_fits_buffer {σ : Type} (T : Transport σ) (BufferIn : Nat → UINT8)
    (SizeIn : Nat) (BufferOut : Nat → UINT8) (SizeOut : Nat) (s : Machine σ) (b : Mem)
    (hb : b ∈ commandBuffers (Tpm2SvsmTpmCommand T BufferIn SizeIn BufferOut SizeOut s).final.trace) :
    sizeofTpm2SendCmdReq = 9
    ∧ sizeofTpm2SendCmdReq ≤ sizeofTpm2SvsmBuffer
    ∧ decodeU32 b reqBufSize = SizeIn
    ∧ sizeofTpm2SendCmdReq + decodeU32 b reqBufSize ≤ TPM_PLATFORM_MAX_BUFFER
    ∧ sizeofTpm2SendCmdReq + SizeIn < 2 ^ 32
    ∧ (∀ ev, ev ∈ (Tpm2SvsmTpmCommand T BufferIn SizeIn BufferOut SizeOut s).final.trace →
        ev.storeInside = true)
    ∧ (∀ i, TPM_PLATFORM_MAX_BUFFER ≤ i → b i = s.Tpm2SvsmBuffer i) := by
  obtain ⟨h, rfl⟩ := reached_inv T BufferIn SizeIn BufferOut SizeOut s b hb
  have hlen : decodeU32 (requestImage s.Tpm2SvsmBuffer BufferIn SizeIn) reqBufSize = SizeIn := by
    simp only [decodeU32, requestImage_apply, reqBufSize, reqLocality, reqCmd]
    simp [byteOf]
    omega
  refine ⟨by decide, by decide, hlen, ?_, ?_, ?_, ?_⟩
  · rw [hlen]
    simp only [sizeofTpm2SendCmdReq, reqBuf, reqBufSize, reqLocality, reqCmd,
      TPM_PLATFORM_MAX_BUFFER]
    omega
  · simp only [sizeofTpm2SendCmdReq, reqBuf, reqBufSize, reqLocality, reqCmd]
    omega
  · exact stores_inside T BufferIn SizeIn BufferOut SizeOut s
  · intro i hi
    simp only [TPM_PLATFORM_MAX_BUFFER] at hi
    rw [requestImage_apply]
    have h1 : ¬ (9 ≤ i ∧ i < 9 + SizeIn) := by omega
    have h2 : ¬ (5 ≤ i ∧ i < 9) := by omega
    have h3 : ¬ (i = 4) := by omega
    have h4 : ¬ (i < 4) := by omega
    simp [h1, h2, h3, h4]

/-- C8 at the largest accepted input, 4087 bytes. -/
theorem C8_request_fits_buffer_witness :
    requestImage zeros ones 4087 ∈ commandBuffers (Tpm2SvsmTpmCommand
        (constTransport false zeros true 0 0) ones 4087 zeros 0 machine0).final.trace
    ∧ sizeofTpm2SendCmdReq + decodeU32 (requestImage zeros ones 4087) reqBufSize
        ≤ TPM_PLATFORM_MAX_BUFFER
    ∧ (∀ ev, ev ∈ (Tpm2SvsmTpmCommand (constTransport false zeros true 0 0) ones 4087 zeros 0
        machine0).final.trace → ev.storeInside = true) :=
  have hb : requestImage zeros ones 4087 ∈ commandBuffers (Tpm2SvsmTpmCommand
      (constTransport false zeros true 0 0) ones 4087 zeros 0 machine0).final.trace :=
    List.mem_singleton.mpr rfl
  ⟨hb,
    (C8_request_fits_buffer (constTransport false zeros true 0 0) ones 4087 zeros 0 machine0
      (requestImage zeros ones 4087) hb).2.2.2.1,
    (C8_request_fits_buffer (constTransport false zeros true 0 0) ones 4087 zeros 0 machine0
      (requestImage zeros ones 4087) hb).2.2.2.2.2.1⟩

/-- C9: the status of a call is one of `EFI_SUCCESS`, `EFI_BUFFER_TOO_SMALL`
and `EFI_DEVICE_ERROR`, never `EFI_UNSUPPORTED`; it is `EFI_SUCCESS` exactly
when `SizeIn` is at most 4087 and `CcExitSnpVtpmCommand` reports success,
`EFI_BUFFER_TOO_SMALL` exactly when `SizeIn` exceeds 4087, and
`EFI_DEVICE_ERROR` exactly when `SizeIn` is at most 4087 and
`CcExitSnpVtpmCommand` reports failure. -/
theorem C9_status_taxonomy {σ : Type} (T : Transport σ) (BufferIn : Nat → UINT8)
    (SizeIn : Nat) (BufferOut : Nat → UINT8) (SizeOut : Nat) (s : Machine σ) :
    ((Tpm2SvsmTpmCommand T BufferIn SizeIn BufferOut SizeOut s).status = EFI_STATUS.EFI_SUCCESS
      ∨ (Tpm2SvsmTpmCommand T BufferIn SizeIn BufferOut SizeOut s).status
          = EFI_STATUS.EFI_BUFFER_TOO_SMALL
      ∨ (Tpm2SvsmTpmCommand T BufferIn SizeIn BufferOut SizeOut s).status
          = EFI_STATUS.EFI_DEVICE_ERROR)
    ∧ (Tpm2SvsmTpmCommand T BufferIn SizeIn BufferOut SizeOut s).status
        ≠ EFI_STATUS.EFI_UNSUPPORTED
    ∧ ((Tpm2SvsmTpmCommand T BufferIn SizeIn BufferOut SizeOut s).status = EFI_STATUS.EFI_SUCCESS
        ↔ SizeIn ≤ 4087 ∧ (T.CcExitSnpVtpmCommand s.host
            (requestImage s.Tpm2SvsmBuffer BufferIn SizeIn)).1 = true)
    ∧ ((Tpm2SvsmTpmCommand T BufferIn SizeIn BufferOut SizeOut s).status
        = EFI_STATUS.EFI_BUFFER_TOO_SMALL ↔ 4087 < SizeIn)
    ∧ ((Tpm2SvsmTpmCommand T BufferIn SizeIn BufferOut SizeOut s).status
        = EFI_STATUS.EFI_DEVICE_ERROR
        ↔ SizeIn ≤ 4087 ∧ (T.CcExitSnpVtpmCommand s.host
            (requestImage s.Tpm2SvsmBuffer BufferIn SizeIn)).1 = false) := by
  by_cases hn : 4087 < SizeIn
  · rw [command_reject T BufferIn SizeIn BufferOut SizeOut s hn]
    simp
    omega
  · cases hr : (T.CcExitSnpVtpmCommand s.host (requestImage s.Tpm2SvsmBuffer BufferIn SizeIn)).1
    · rw [command_fail T BufferIn SizeIn BufferOut SizeOut s (by omega) hr]
      simp
      omega
    · rw [command_ok T BufferIn SizeIn BufferOut SizeOut s (by omega) hr]
      simp
      omega

/-- C10: a call makes exactly one call of `CcExitSnpVtpmCommand` when `SizeIn`
is at most 4087 and none otherwise, the paravisor state after the call is the
state after that one call, `CcExitSnpVtpmQuery` is never called, and the
status is `EFI_DEVICE_ERROR` exactly when one call was made and it failed. -/
theorem C10_single_command_call {σ : Type} (T : Transport σ) (BufferIn : Nat → UINT8)
    (SizeIn : Nat) (BufferOut : Nat → UINT8) (SizeOut : Nat) (s : Machine σ) :
    (commandBuffers (Tpm2SvsmTpmCommand T BufferIn SizeIn BufferOut SizeOut s).final.trace).length
        = (if SizeIn ≤ 4087 then 1 else 0)
    ∧ (Tpm2SvsmTpmCommand T BufferIn SizeIn BufferOut SizeOut s).final.host
        = (if SizeIn ≤ 4087 then
            (T.CcExitSnpVtpmCommand s.host (requestImage s.Tpm2SvsmBuffer BufferIn SizeIn)).2.2
          else s.host)
    ∧ queryCalls (Tpm2SvsmTpmCommand T BufferIn SizeIn BufferOut SizeOut s).final.trace = 0
    ∧ ((Tpm2SvsmTpmCommand T BufferIn SizeIn BufferOut SizeOut s).status
        = EFI_STATUS.EFI_DEVICE_ERROR
        ↔ (commandBuffers
            (Tpm2SvsmTpmCommand T BufferIn SizeIn BufferOut SizeOut s).final.trace).length = 1
          ∧ (T.CcExitSnpVtpmCommand s.host
              (requestImage s.Tpm2SvsmBuffer BufferIn SizeIn)).1 = false) := by
  by_cases hn : 4087 < SizeIn
  · rw [command_reject T BufferIn SizeIn BufferOut SizeOut s hn]
    have hle : ¬ SizeIn ≤ 4087 := by omega
    simp [Machine.start, commandBuffers, queryCalls, hle]
  · have hle : SizeIn ≤ 4087 := by omega
    cases hr : (T.CcExitSnpVtpmCommand s.host (requestImage s.Tpm2SvsmBuffer BufferIn SizeIn)).1
    · rw [command_fail T BufferIn SizeIn BufferOut SizeOut s hle hr]
      simp [Exec.vtpmCommand, writeRequest_trace, writeRequest_buffer, writeRequest_host,
        commandBuffers, queryCalls, hle]
    · rw [command_ok T BufferIn SizeIn BufferOut SizeOut s hle hr]
      simp [Exec.vtpmCommand, Exec.loadI32, Exec.copyMemOut, writeRequest_trace,
        writeRequest_buffer, writeRequest_host, commandBuffers, queryCalls, hle]

/-! ## The response length and the frame of a call -/

/-- The state and events a call of `Tpm2IsSvsmTpmCommandSupported` leaves are those of the query. -/
theorem supported_final {σ : Type} (T : Transport σ) (s : Machine σ) :
    (Tpm2IsSvsmTpmCommandSupported T s).final = (Exec.vtpmQuery T s.start 0 0).2 := by
  unfold Tpm2IsSvsmTpmCommandSupported
  simp only []
  split
  · rfl
  · split <;> rfl

/-- C12: a call of `Tpm2IsSvsmTpmCommandSupported` leaves the buffer as it
was, its only event is one call of `CcExitSnpVtpmQuery` (no call of
`CcExitSnpVtpmCommand`, no access to the buffer), the paravisor state is the
one the query left, and two calls whose queries have the same outcome return
the same boolean. -/
theorem C12_supported_frame {σ τ : Type} (T : Transport σ) (s : Machine σ) (T2 : Transport τ)
    (s2 : Machine τ)
    (hsame : (T2.CcExitSnpVtpmQuery s2.host 0 0).1 = (T.CcExitSnpVtpmQuery s.host 0 0).1
      ∧ (T2.CcExitSnpVtpmQuery s2.host 0 0).2.1 = (T.CcExitSnpVtpmQuery s.host 0 0).2.1
      ∧ (T2.CcExitSnpVtpmQuery s2.host 0 0).2.2.1 = (T.CcExitSnpVtpmQuery s.host 0 0).2.2.1) :
    (Tpm2IsSvsmTpmCommandSupported T s).final.Tpm2SvsmBuffer = s.Tpm2SvsmBuffer
    ∧ (Tpm2IsSvsmTpmCommandSupported T s).final.trace = [Event.vtpmQuery]
    ∧ queryCalls (Tpm2IsSvsmTpmCommandSupported T s).final.trace = 1
    ∧ commandBuffers (Tpm2IsSvsmTpmCommandSupported T s).final.trace = []
    ∧ (Tpm2IsSvsmTpmCommandSupported T s).final.host = (T.CcExitSnpVtpmQuery s.host 0 0).2.2.2
    ∧ (Tpm2IsSvsmTpmCommandSupported T2 s2).ret = (Tpm2IsSvsmTpmCommandSupported T s).ret := by
  rw [supported_final T s]
  refine ⟨rfl, rfl, rfl, rfl, rfl, ?_⟩
  rw [supported_ret T s _ _ _ _ rfl, supported_ret T2 s2 _ _ _ _ rfl, hsame.1, hsame.2.1,
    hsame.2.2]

/-- C12 at two paravisors that differ in everything but the outcome of the query. -/
theorem C12_supported_frame_witness :
    (((constTransport false ones true 0x100 0).CcExitSnpVtpmQuery machine0.host 0 0).1
        = ((constTransport true zeros true 0x100 0).CcExitSnpVtpmQuery machine0.host 0 0).1
      ∧ ((constTransport false ones true 0x100 0).CcExitSnpVtpmQuery machine0.host 0 0).2.1
        = ((constTransport true zeros true 0x100 0).CcExitSnpVtpmQuery machine0.host 0 0).2.1
      ∧ ((constTransport false ones true 0x100 0).CcExitSnpVtpmQuery machine0.host 0 0).2.2.1
        = ((constTransport true zeros true 0x100 0).CcExitSnpVtpmQuery machine0.host 0 0).2.2.1)
    ∧ (Tpm2IsSvsmTpmCommandSupported (constTransport true zeros true 0x100 0)
        machine0).final.Tpm2SvsmBuffer = machine0.Tpm2SvsmBuffer
    ∧ (Tpm2IsSvsmTpmCommandSupported (constTransport true zeros true 0x100 0) machine0).final.trace
        = [Event.vtpmQuery]
    ∧ (Tpm2IsSvsmTpmCommandSupported (constTransport false ones true 0x100 0) machine0).ret
        = (Tpm2IsSvsmTpmCommandSupported (constTransport true zeros true 0x100 0) machine0).ret :=
  ⟨⟨rfl, rfl, rfl⟩,
    (C12_supported_frame (constTransport true zeros true 0x100 0) machine0
      (constTransport false ones true 0x100 0) machine0 ⟨rfl, rfl, rfl⟩).1,
    (C12_supported_frame (constTransport true zeros true 0x100 0) machine0
      (constTransport false ones true 0x100 0) machine0 ⟨rfl, rfl, rfl⟩).2.1,
    (C12_supported_frame (constTransport true zeros true 0x100 0) machine0
      (constTransport false ones true 0x100 0) machine0 ⟨rfl, rfl, rfl⟩).2.2.2.2.2⟩

/-- C13: the entry value of `*SizeOut` is never read.  Any two calls that
differ only in it, whether they succeed or fail, have the same status, leave
the same buffer, paravisor state and events, and the same `BufferOut`; when
one returns `EFI_SUCCESS` so does the other, with the same final `*SizeOut`. -/
theorem C13_entry_size_ignored {σ : Type} (T : Transport σ) (BufferIn : Nat → UINT8)
    (SizeIn : Nat) (BufferOut : Nat → UINT8) (SizeOut1 SizeOut2 : Nat) (s : Machine σ) :
    (Tpm2SvsmTpmCommand T BufferIn SizeIn BufferOut SizeOut1 s).status
        = (Tpm2SvsmTpmCommand T BufferIn SizeIn BufferOut SizeOut2 s).status
    ∧ (Tpm2SvsmTpmCommand T BufferIn SizeIn BufferOut SizeOut1 s).final
        = (Tpm2SvsmTpmCommand T BufferIn SizeIn BufferOut SizeOut2 s).final
    ∧ (Tpm2SvsmTpmCommand T BufferIn SizeIn BufferOut SizeOut1 s).BufferOut
        = (Tpm2SvsmTpmCommand T BufferIn SizeIn BufferOut SizeOut2 s).BufferOut
    ∧ ((Tpm2SvsmTpmCommand T BufferIn SizeIn BufferOut SizeOut1 s).status
          = EFI_STATUS.EFI_SUCCESS →
        (Tpm2SvsmTpmCommand T BufferIn SizeIn BufferOut SizeOut2 s).status
            = EFI_STATUS.EFI_SUCCESS
        ∧ (Tpm2SvsmTpmCommand T BufferIn SizeIn BufferOut SizeOut2 s).SizeOut
            = (Tpm2SvsmTpmCommand T BufferIn SizeIn BufferOut SizeOut1 s).SizeOut) := by
  by_cases hn : 4087 < SizeIn
  · rw [command_reject T BufferIn SizeIn BufferOut SizeOut1 s hn,
      command_reject T BufferIn SizeIn BufferOut SizeOut2 s hn]
    refine ⟨rfl, rfl, rfl, ?_⟩
    intro hs
    simp at hs
  · cases hr : (T.CcExitSnpVtpmCommand s.host
        (requestImage s.Tpm2SvsmBuffer BufferIn SizeIn)).1
    · rw [command_fail T BufferIn SizeIn BufferOut SizeOut1 s (by omega) hr,
        command_fail T BufferIn SizeIn BufferOut SizeOut2 s (by omega) hr]
      refine ⟨rfl, rfl, rfl, ?_⟩
      intro hs
      simp at hs
    · rw [command_ok T BufferIn SizeIn BufferOut SizeOut1 s (by omega) hr,
        command_ok T BufferIn SizeIn BufferOut SizeOut2 s (by omega) hr]
      exact ⟨rfl, rfl, rfl, fun _ => ⟨rfl, rfl⟩⟩

/-- C13 at entry values 0 and 4096: with a three-byte response, and with a
paravisor that fails. -/
theorem C13_entry_size_ignored_witness :
    ((Tpm2SvsmTpmCommand (constTransport true response3 true 0 0) zeros 0 zeros 4096
        machine0).status = EFI_STATUS.EFI_SUCCESS
      ∧ (Tpm2SvsmTpmCommand (constTransport true response3 true 0 0) zeros 0 zeros 4096
        machine0).SizeOut
        = (Tpm2SvsmTpmCommand (constTransport true response3 true 0 0) zeros 0 zeros 0
            machine0).SizeOut)
    ∧ (Tpm2SvsmTpmCommand (constTransport false response3 true 0 0) zeros 0 zeros 0
        machine0).status
        = (Tpm2SvsmTpmCommand (constTransport false response3 true 0 0) zeros 0 zeros 4096
            machine0).status :=
  ⟨(C13_entry_size_ignored (constTransport true response3 true 0 0) zeros 0 zeros 0 4096
      machine0).2.2.2 (by decide),
    (C13_entry_size_ignored (constTransport false response3 true 0 0) zeros 0 zeros 0 4096
      machine0).1⟩

/-- C14: building the request does not clear the buffer.  For an input of at
most 4087 bytes, the buffer handed to `CcExitSnpVtpmCommand` holds at every
offset from 9 + `SizeIn` on (so at 9 + `SizeIn` .. 4095) the byte that was
there before the call; the events before the call of the paravisor are the
four writes of the request, every written range ends at or before
9 + `SizeIn`, and nothing is written after it.  After a response of FF bytes,
the next request still carries FF at offsets 12 and 4095. -/
theorem C14_request_keeps_tail {σ : Type} (T : Transport σ) (BufferIn : Nat → UINT8)
    (SizeIn : Nat) (BufferOut : Nat → UINT8) (SizeOut : Nat) (s : Machine σ)
    (h : SizeIn ≤ 4087) :
    (∃ (b : Mem) (after : List Event),
      commandBuffers (Tpm2SvsmTpmCommand T BufferIn SizeIn BufferOut SizeOut s).final.trace = [b]
      ∧ (∀ i, 9 + SizeIn ≤ i → b i = s.Tpm2SvsmBuffer i)
      ∧ (Tpm2SvsmTpmCommand T BufferIn SizeIn BufferOut SizeOut s).final.trace
          = [Event.store 0 4, Event.store 4 1, Event.store 5 4, Event.store 9 SizeIn,
              Event.vtpmCommand b] ++ after
      ∧ (∀ ev, ev ∈ after → ∀ offset len, ev ≠ Event.store offset len))
    ∧ (∀ offset len,
        Event.store offset len
          ∈ (Tpm2SvsmTpmCommand T BufferIn SizeIn BufferOut SizeOut s).final.trace →
        offset + len ≤ 9 + SizeIn)
    ∧ (commandBuffers (Tpm2SvsmTpmCommand (constTransport true ones true 0 0) zeros 3 zeros 0
        ⟨(Tpm2SvsmTpmCommand (constTransport true ones true 0 0) zeros 0 zeros 0
            machine0).final.Tpm2SvsmBuffer, ()⟩).final.trace).map
          (fun b => (b 11, b 12, b 4095)) = [(0, 255, 255)] := by
  have htail : ∀ i, 9 + SizeIn ≤ i →
      requestImage s.Tpm2SvsmBuffer BufferIn SizeIn i = s.Tpm2SvsmBuffer i := by
    intro i hi
    rw [requestImage_apply]
    have h1 : ¬ (9 ≤ i ∧ i < 9 + SizeIn) := by omega
    have h2 : ¬ (5 ≤ i ∧ i < 9) := by omega
    have h3 : ¬ (i = 4) := by omega
    have h4 : ¬ (i < 4) := by omega
    simp [h1, h2, h3, h4]
  refine ⟨?_, ?_, by decide⟩
  · cases hr : (T.CcExitSnpVtpmCommand s.host (requestImage s.Tpm2SvsmBuffer BufferIn SizeIn)).1
    · refine ⟨requestImage s.Tpm2SvsmBuffer BufferIn SizeIn, [], ?_, htail, ?_, ?_⟩
      · rw [command_fail_trace T BufferIn SizeIn BufferOut SizeOut s h hr]
        simp [commandBuffers]
      · rw [command_fail_trace T BufferIn SizeIn BufferOut SizeOut s h hr]
        rfl
      · intro ev hev
        simp at hev
    · refine ⟨requestImage s.Tpm2SvsmBuffer BufferIn SizeIn,
        [Event.load 0 4, Event.load 4 (decodeU32 (T.CcExitSnpVtpmCommand s.host
          (requestImage s.Tpm2SvsmBuffer BufferIn SizeIn)).2.1 0)], ?_, htail, ?_, ?_⟩
      · rw [(command_ok_fields T BufferIn SizeIn BufferOut SizeOut s h hr).2.2.2.2]
        simp [commandBuffers]
      · rw [(command_ok_fields T BufferIn SizeIn BufferOut SizeOut s h hr).2.2.2.2]
        rfl
      · intro ev hev offset len
        simp only [List.mem_cons, List.mem_singleton, List.not_mem_nil, or_false] at hev
        rcases hev with rfl | rfl <;> simp
  · intro offset len hmem
    cases hr : (T.CcExitSnpVtpmCommand s.host (requestImage s.Tpm2SvsmBuffer BufferIn SizeIn)).1
    · rw [command_fail_trace T BufferIn SizeIn BufferOut SizeOut s h hr] at hmem
      simp at hmem
      omega
    · rw [(command_ok_fields T BufferIn SizeIn BufferOut SizeOut s h hr).2.2.2.2] at hmem
      simp at hmem
      omega

/-- C14 at a three-byte input over a buffer of FF bytes. -/
theorem C14_request_keeps_tail_witness :
    3 ≤ 4087
    ∧ (∀ offset len,
        Event.store offset len
          ∈ (Tpm2SvsmTpmCommand (constTransport true response3 true 0 0) zeros 3 zeros 0
              ⟨ones, ()⟩).final.trace →
        offset + len ≤ 9 + 3)
    ∧ ∃ (b : Mem) (after : List Event),
      commandBuffers (Tpm2SvsmTpmCommand (constTransport true response3 true 0 0) zeros 3 zeros 0
        ⟨ones, ()⟩).final.trace = [b]
      ∧ (∀ i, 9 + 3 ≤ i → b i = (Machine.mk ones ()).Tpm2SvsmBuffer i)
      ∧ (Tpm2SvsmTpmCommand (constTransport true response3 true 0 0) zeros 3 zeros 0
          ⟨ones, ()⟩).final.trace
          = [Event.store 0 4, Event.store 4 1, Event.store 5 4, Event.store 9 3,
              Event.vtpmCommand b] ++ after
      ∧ (∀ ev, ev ∈ after → ∀ offset len, ev ≠ Event.store offset len) :=
  ⟨by decide,
    (C14_request_keeps_tail (constTransport true response3 true 0 0) zeros 3 zeros 0
      ⟨ones, ()⟩ (by decide)).2.1,
    (C14_request_keeps_tail (constTransport true response3 true 0 0) zeros 3 zeros 0
      ⟨ones, ()⟩ (by decide)).1⟩

/-- C15: on a call that succeeds, the copy into `BufferOut` has the length of
the final `*SizeOut`: every byte of `BufferOut` at an index from `*SizeOut` on
keeps its value, every byte below it is the response byte, and when the length field of the response is 0, `BufferOut`
is unchanged, `*SizeOut` is 0 and the status is `EFI_SUCCESS`. -/
theorem C15_output_frame {σ : Type} (T : Transport σ) (BufferIn : Nat → UINT8)
    (SizeIn : Nat) (BufferOut : Nat → UINT8) (SizeOut : Nat) (s : Machine σ)
    (hs : (Tpm2SvsmTpmCommand T BufferIn SizeIn BufferOut SizeOut s).status
      = EFI_STATUS.EFI_SUCCESS) :
    Event.load respBuf (Tpm2SvsmTpmCommand T BufferIn SizeIn BufferOut SizeOut s).SizeOut
        ∈ (Tpm2SvsmTpmCommand T BufferIn SizeIn BufferOut SizeOut s).final.trace
    ∧ (∀ i, (Tpm2SvsmTpmCommand T BufferIn SizeIn BufferOut SizeOut s).SizeOut ≤ i →
        (Tpm2SvsmTpmCommand T BufferIn SizeIn BufferOut SizeOut s).BufferOut i = BufferOut i)
    ∧ (∀ i, i < (Tpm2SvsmTpmCommand T BufferIn SizeIn BufferOut SizeOut s).SizeOut →
        (Tpm2SvsmTpmCommand T BufferIn SizeIn BufferOut SizeOut s).BufferOut i
          = (Tpm2SvsmTpmCommand T BufferIn SizeIn BufferOut SizeOut s).final.Tpm2SvsmBuffer
              (respBuf + i))
    ∧ (decodeU32
          (Tpm2SvsmTpmCommand T BufferIn SizeIn BufferOut SizeOut s).final.Tpm2SvsmBuffer 0 = 0 →
        (Tpm2SvsmTpmCommand T BufferIn SizeIn BufferOut SizeOut s).BufferOut = BufferOut
        ∧ (Tpm2SvsmTpmCommand T BufferIn SizeIn BufferOut SizeOut s).SizeOut = 0
        ∧ (Tpm2SvsmTpmCommand T BufferIn SizeIn BufferOut SizeOut s).status
            = EFI_STATUS.EFI_SUCCESS) := by
  obtain ⟨h, hok⟩ := success_inv T BufferIn SizeIn BufferOut SizeOut s hs
  obtain ⟨hst, hbuf, hsize, hout, htrace⟩ :=
    command_ok_fields T BufferIn SizeIn BufferOut SizeOut s h hok
  rw [hbuf, hsize, hout, htrace, hst]
  refine ⟨?_, ?_, ?_, ?_⟩
  · simp [respBuf, respSize]
  · intro i hi
    have hni : ¬ i < decodeU32 (T.CcExitSnpVtpmCommand s.host
        (requestImage s.Tpm2SvsmBuffer BufferIn SizeIn)).2.1 0 := by omega
    simp only [if_neg hni]
  · intro i hi
    simp only [if_pos hi, respBuf, respSize]
  · intro hz
    refine ⟨?_, hz, rfl⟩
    funext i
    simp [hz]

/-- C15 at a response of length 0 over an output buffer of FF bytes. -/
theorem C15_output_frame_witness :
    (Tpm2SvsmTpmCommand (constTransport true zeros true 0 0) zeros 0 ones 7 machine0).status
        = EFI_STATUS.EFI_SUCCESS
    ∧ decodeU32 (Tpm2SvsmTpmCommand (constTransport true zeros true 0 0) zeros 0 ones 7
        machine0).final.Tpm2SvsmBuffer 0 = 0
    ∧ (Tpm2SvsmTpmCommand (constTransport true zeros true 0 0) zeros 0 ones 7 machine0).BufferOut
        = ones
    ∧ (Tpm2SvsmTpmCommand (constTransport true zeros true 0 0) zeros 0 ones 7 machine0).SizeOut
        = 0 :=
  ⟨by decide, by decide,
    ((C15_output_frame (constTransport true zeros true 0 0) zeros 0 ones 7 machine0
      (by decide)).2.2.2 (by decide)).1,
    ((C15_output_frame (constTransport true zeros true 0 0) zeros 0 ones 7 machine0
      (by decide)).2.2.2 (by decide)).2.1⟩

end Tpm2Svsm
